import Mathlib

/- Shallow embedding of `hal-nofp-bridge.py` (class `NOFP`): the message
router (`on_message`) and the connection supervisor (`run`,
`on_disconnect`), together with theorems checking the specification's
claims against it.  Python floats are modelled as exact rationals; the
external MQTT client is modelled by input streams saying what each
`connect()` / `reconnect()` / `loop()` call does. -/

namespace NOFP

/-- The `NOFP.config` dataclass.  Only the fields the supervisor and router
read are carried; `description`, `mqtt_broker`, `mqtt_port`, `mqtt_timeout`
and `loglevel` are only passed to external collaborators.  The three retry
ceilings are Python ints (`Int`), defaulting to 10 as in the source. -/
structure Config where
  name : String
  topic : String
  param_conv : List (String × String)
  mqtt_max_reconnects : Int := 10
  mqtt_max_startup : Int := 10
  mqtt_max_loop_reconnect : Int := 10
deriving DecidableEq

/-- A JSON field value as seen by `float(rcv[key])`: either a value that
`float()` converts (a number or numeric string), carried as the exact
rational it denotes, or a value `float()` raises on. -/
inductive JVal
  | num (q : ℚ)
  | nonNum
deriving DecidableEq

/-- An inbound message payload as seen by `json.loads`: a JSON object
(field/value pairs), or bytes on which parsing raises.  A JSON document
that is not an object behaves like an object with no fields (every
subscripting raises), so it is covered by `obj []`. -/
inductive Payload
  | obj (fields : List (String × JVal))
  | malformed
deriving DecidableEq

/-- An inbound MQTT message: topic and payload. -/
structure Message where
  topic : String
  payload : Payload
deriving DecidableEq

/-- Evaluation of `float(rcv[k])` on a parsed object: `some q` when field
`k` is present with a `float()`-convertible value, `none` when the
subscripting or the conversion raises (absent field, non-numeric value). -/
def getNum (fields : List (String × JVal)) (k : String) : Option ℚ :=
  match List.lookup k fields with
  | some (JVal.num q) => some q
  | _ => none

/-- Round to the nearest integer, ties to even: the rounding performed by
`format(x, ".0f")` on the value being formatted (here an exact rational
standing in for the IEEE double). -/
def roundHalfEven (q : ℚ) : ℤ :=
  if q - ⌊q⌋ < 1/2 then ⌊q⌋
  else if 1/2 < q - ⌊q⌋ then ⌊q⌋ + 1
  else if ⌊q⌋ % 2 = 0 then ⌊q⌋ else ⌊q⌋ + 1

/-- Python `format(x, ".0f")`: round half-to-even to an integer and render
in decimal.  The sign is taken from the value being formatted, even when
the rounded magnitude is zero: `format(-0.4, ".0f")` is `"-0"` (rounding
ties-to-even is symmetric, so the digits of a negative value are those of
the rounded negated value). -/
def formatDot0f (q : ℚ) : String :=
  if q < 0 then "-" ++ toString (roundHalfEven (-q)).toNat
  else toString (roundHalfEven q).toNat

/-- The `for topic in self.config.param_conv` body of `on_message` over an
already-parsed object: publishes accumulate in configuration order until
`float(rcv[...])` raises.  Returns the `(topic, payload)` publish calls
made, and `true` when the loop completed without raising. -/
def convLoop (name : String) (fields : List (String × JVal)) :
    List (String × String) → List (String × String) × Bool
  | [] => ([], true)
  | p :: rest =>
    match getNum fields p.1 with
    | some q =>
      let r := convLoop name fields rest
      ((name ++ "/" ++ p.2, formatDot0f (q * 1000)) :: r.1, r.2)
    | none => ([], false)

/-- `NOFP.on_message` (lines 46-57): messages on a foreign topic are
ignored; otherwise the payload is parsed and each configured pair is
converted and published; any exception from parsing or conversion is
caught by the bare `except:` and logged with two `logging.warn` calls
(the topic/payload line and the traceback).  Returns the ordered publish
calls and the number of warning records emitted.  The function always
returns (it propagates nothing to the caller that dispatched it). -/
def on_message (cfg : Config) (m : Message) : List (String × String) × Nat :=
  if m.topic = cfg.topic then
    match m.payload with
    | Payload.malformed => ([], 2)
    | Payload.obj fields =>
      let r := convLoop cfg.name fields cfg.param_conv
      (r.1, if r.2 then 0 else 2)
  else ([], 0)

/-- A payload on which the `try:` block of `on_message` raises: bytes that
do not parse, or a parsed object in which some configured input field is
absent or has a non-`float()`-convertible value. -/
def payloadFails (cfg : Config) : Payload → Bool
  | Payload.malformed => true
  | Payload.obj fields => cfg.param_conv.any fun p => (getNum fields p.1).isNone

/-- Outcome of one external `connect()` / `reconnect()` call: success, or
the `OSError` that the `except OSError:` arms catch. -/
inductive ConnectResult
  | ok
  | osError
deriving DecidableEq

/-- What one steady-state `try:` block raises: nothing (the tick
returned), `SystemExit` (an `exit()` call escaping from a callback that
the tick dispatched), one of `socket.timeout` / `TimeoutError` /
`ConnectionError`, or any other exception. -/
inductive TickResult
  | ok
  | systemExit
  | timeoutErr
  | otherErr
deriving DecidableEq

/-- Observable calls made by the supervisor, in order. -/
inductive Ev
  | connectCall
  | registerDisconnect
  | reconnectCall
  | tickCall
  | wait30
deriving DecidableEq

/-- Mutable state of the steady-state loop in `run`.  `reconnect_flag` is
the local variable tested at the top of the `try:` block;
`self_reconnect_flag` is the distinct instance attribute that the
(misspelt) clearing assignment `self.reconnect_flag = False` actually
writes. -/
structure LoopState where
  loop_count : Nat
  loop_reconnect_count : Int
  reconnect_flag : Bool
  self_reconnect_flag : Bool
deriving DecidableEq

/-- How a `run()` invocation ends: a `sys.exit(code)` reaching the
interpreter; a crash, i.e. an exception escaping `run` uncaught, upon
which the interpreter prints a traceback and terminates with status 1
(the state at the moment of the crash is carried); or exhaustion of the
modelled environment input while the code would keep looping. -/
inductive RunResult
  | exited (code : Nat)
  | crashed (st : LoopState)
  | outOfInput
deriving DecidableEq

/-- The startup-connect loop of `run` (lines 107-117): while
`startup_count < mqtt_max_startup`, increment the count, call
`connect()`; on success register the atexit disconnect and break; on
`OSError` wait 30 and retry.  Consumes one `ConnectResult` per attempt;
returns the events and the final `startup_count` (`none` when the input
ran out while the loop would continue). -/
def startupLoop (maxStartup count : Int) : List ConnectResult → Option (List Ev × Int)
  | [] => if count < maxStartup then none else some ([], count)
  | ConnectResult.ok :: _ =>
    if count < maxStartup then some ([Ev.connectCall, Ev.registerDisconnect], count + 1)
    else some ([], count)
  | ConnectResult.osError :: rest =>
    if count < maxStartup then
      match startupLoop maxStartup (count + 1) rest with
      | none => none
      | some (evs, c) => some (Ev.connectCall :: Ev.wait30 :: evs, c)
    else some ([], count)

/-- Lines 151-155, after the steady-state loop: `exit(1)` when the
loop-reconnect ceiling was reached, otherwise `exit(0)`. -/
def postLoop (cfg : Config) (st : LoopState) : RunResult :=
  if cfg.mqtt_max_loop_reconnect ≤ st.loop_reconnect_count then
    RunResult.exited 1
  else
    RunResult.exited 0

/-- The steady-state loop of `run` (lines 125-155), driven by one
environment input per iteration: the value of `self.running` read by the
loop condition, and what the `try:` block's tick raises.  Faithful to the
source's handler bodies: the timeout/connection handler increments the
count and sets the flag, then its log line concatenates a `str` with an
`int` and raises `TypeError`; the catch-all handler's
`logging.logging.critical` raises `AttributeError` (the `logging` module
has no attribute `logging`) before `exit(2)` is reached; both exceptions
escape `run`, so those arms end in `crashed`.  A successful reconnect
clears only the instance attribute, never the local flag. -/
def steadyLoop (cfg : Config) (st : LoopState) :
    List (Bool × TickResult) → List Ev × RunResult
  | [] => ([], RunResult.outOfInput)
  | (running, t) :: rest =>
    if running && decide (st.loop_reconnect_count < cfg.mqtt_max_loop_reconnect) then
      let st1 := { st with
        loop_count := if 65535 ≤ st.loop_count then 0 else st.loop_count + 1 }
      let evs := (if st1.reconnect_flag then [Ev.reconnectCall] else []) ++ [Ev.tickCall]
      let st2 := if st1.reconnect_flag then { st1 with self_reconnect_flag := false } else st1
      match t with
      | TickResult.ok =>
        let r := steadyLoop cfg { st2 with loop_reconnect_count := 0 } rest
        (evs ++ r.1, r.2)
      | TickResult.systemExit => (evs, postLoop cfg st2)
      | TickResult.timeoutErr =>
        (evs, RunResult.crashed { st2 with
          loop_reconnect_count := st2.loop_reconnect_count + 1,
          reconnect_flag := true })
      | TickResult.otherErr => (evs, RunResult.crashed st2)
    else
      ([], postLoop cfg st)

/-- `NOFP.run` (lines 82-155) as a function of the configuration and the
environment: `connects` gives the outcome of each startup `connect()`
call, and `loopInputs` gives, per steady-state iteration, the value of
`self.running` read by the loop condition and what the tick raises.
Validation of the three ceilings happens before any connect; the
post-startup check tests only `startup_count >= mqtt_max_startup`,
irrespective of whether the last connect succeeded. -/
def run (cfg : Config) (connects : List ConnectResult)
    (loopInputs : List (Bool × TickResult)) : List Ev × RunResult :=
  if cfg.mqtt_max_loop_reconnect < 1 then ([], RunResult.exited 1)
  else if cfg.mqtt_max_startup < 1 then ([], RunResult.exited 1)
  else if cfg.mqtt_max_reconnects < 1 then ([], RunResult.exited 1)
  else
    match startupLoop cfg.mqtt_max_startup 0 connects with
    | none => ([], RunResult.outOfInput)
    | some (evs, count) =>
      if cfg.mqtt_max_startup ≤ count then (evs, RunResult.exited 1)
      else
        let r := steadyLoop cfg ⟨0, 0, false, false⟩ loopInputs
        (evs ++ r.1, r.2)

/-- Outcome of `on_disconnect`: a normal return, or an `exit(code)` call,
which raises `SystemExit(code)` inside whatever transport call dispatched
the callback. -/
inductive DisconnectResult
  | returned
  | exitCall (code : Nat)
deriving DecidableEq

/-- The reconnect sub-loop of `on_disconnect` (lines 63-72): while
`reconnect_count < mqtt_max_reconnects`, increment the count, call
`reconnect()`; break on success, wait 30 on `OSError`.  Consumes one
`ConnectResult` per attempt; returns events and the final count (`none`
when the input ran out while the loop would continue). -/
def reconnectLoop (maxReconnects count : Int) : List ConnectResult → Option (List Ev × Int)
  | [] => if count < maxReconnects then none else some ([], count)
  | ConnectResult.ok :: _ =>
    if count < maxReconnects then some ([Ev.reconnectCall], count + 1)
    else some ([], count)
  | ConnectResult.osError :: rest =>
    if count < maxReconnects then
      match reconnectLoop maxReconnects (count + 1) rest with
      | none => none
      | some (evs, c) => some (Ev.reconnectCall :: Ev.wait30 :: evs, c)
    else some ([], count)

/-- `NOFP.on_disconnect` (lines 59-75): a zero reason code only logs; a
non-zero reason code runs the bounded reconnect sub-loop and then calls
`exit(1)` whenever `reconnect_count >= mqtt_max_reconnects`, a test that
does not consult whether the last reconnect succeeded.  `attempts` gives
the outcome of each `reconnect()` call. -/
def on_disconnect (cfg : Config) (rc : Int) (attempts : List ConnectResult) :
    Option (List Ev × DisconnectResult) :=
  if rc ≠ 0 then
    match reconnectLoop cfg.mqtt_max_reconnects 0 attempts with
    | none => none
    | some (evs, count) =>
      if cfg.mqtt_max_reconnects ≤ count then
        some (evs, DisconnectResult.exitCall 1)
      else
        some (evs, DisconnectResult.returned)
  else
    some ([], DisconnectResult.returned)

/- Helper lemmas, shared between the claim theorems. -/

lemma formatDot0f_at_12345 : formatDot0f ((12.345 : ℚ) * 1000) = "12345" := by
  have h : ((12.345 : ℚ) * 1000) = 12345 := by norm_num
  rw [h]
  simp only [formatDot0f, roundHalfEven]
  norm_num
  all_goals decide

lemma formatDot0f_at_neg0004 : formatDot0f ((-0.0004 : ℚ) * 1000) = "-0" := by
  have h : ((-0.0004 : ℚ) * 1000) = -2/5 := by norm_num
  rw [h]
  simp only [formatDot0f, roundHalfEven]
  norm_num
  all_goals decide

lemma formatDot0f_at_one : formatDot0f ((1 : ℚ) * 1000) = "1000" := by
  have h : ((1 : ℚ) * 1000) = 1000 := by norm_num
  rw [h]
  simp only [formatDot0f, roundHalfEven]
  norm_num
  all_goals decide

lemma convLoop_allNum (name : String) (fields : List (String × JVal)) :
    ∀ l : List (String × String), (∀ p ∈ l, (getNum fields p.1).isSome) →
      convLoop name fields l =
        (l.map fun p => (name ++ "/" ++ p.2, formatDot0f ((getNum fields p.1).getD 0 * 1000)),
         true)
  | [], _ => rfl
  | p :: rest, h => by
    obtain ⟨q, hq⟩ := Option.isSome_iff_exists.mp (h p (List.mem_cons_self p rest))
    have ih := convLoop_allNum name fields rest fun x hx => h x (List.mem_cons_of_mem p hx)
    unfold convLoop
    rw [hq, ih]
    simp [hq]

lemma convLoop_failAfter (name : String) (fields : List (String × JVal))
    (bad : String × String) (tail : List (String × String))
    (hbad : getNum fields bad.1 = none) :
    ∀ good : List (String × String), (∀ p ∈ good, (getNum fields p.1).isSome) →
      convLoop name fields (good ++ bad :: tail) =
        (good.map fun p => (name ++ "/" ++ p.2, formatDot0f ((getNum fields p.1).getD 0 * 1000)),
         false)
  | [], _ => by
    rw [List.nil_append]
    unfold convLoop
    rw [hbad]
    simp
  | p :: good, h => by
    obtain ⟨q, hq⟩ := Option.isSome_iff_exists.mp (h p (List.mem_cons_self p good))
    have ih := convLoop_failAfter name fields bad tail hbad good
      fun x hx => h x (List.mem_cons_of_mem p hx)
    rw [List.cons_append]
    unfold convLoop
    rw [hq, ih]
    simp [hq]

lemma convLoop_snd_of_fail (name : String) (fields : List (String × JVal)) :
    ∀ l : List (String × String), (l.any fun p => (getNum fields p.1).isNone) = true →
      (convLoop name fields l).2 = false
  | p :: rest, h => by
    cases hq : getNum fields p.1 with
    | none =>
      unfold convLoop
      rw [hq]
    | some q =>
      have hrest : (rest.any fun p => (getNum fields p.1).isNone) = true := by
        simpa [hq] using h
      have ih := convLoop_snd_of_fail name fields rest hrest
      unfold convLoop
      rw [hq]
      simpa using ih

lemma startupLoop_replicate_osError :
    ∀ (k : Nat) (count maxS : Int), count + k = maxS →
      ∀ rest : List ConnectResult,
        startupLoop maxS count (List.replicate k ConnectResult.osError ++ rest)
          = some ((List.replicate k [Ev.connectCall, Ev.wait30]).flatten, maxS)
  | 0, count, maxS, h, rest => by
    have hc : count = maxS := by omega
    subst hc
    cases rest with
    | nil => simp [startupLoop]
    | cons r rest =>
      cases r with
      | ok => simp [startupLoop]
      | osError => simp [startupLoop]
  | k + 1, count, maxS, h, rest => by
    have hc : count < maxS := by omega
    have ih := startupLoop_replicate_osError k (count + 1) maxS (by omega) rest
    rw [List.replicate_succ, List.cons_append]
    unfold startupLoop
    rw [if_pos hc, ih]
    rw [List.replicate_succ, List.flatten_cons]
    rfl

lemma count_connectCall_join_replicate :
    ∀ k : Nat,
      ((List.replicate k [Ev.connectCall, Ev.wait30]).flatten).count Ev.connectCall = k
  | 0 => rfl
  | k + 1 => by
    rw [List.replicate_succ, List.flatten_cons]
    simp [List.count_cons, count_connectCall_join_replicate k]

/- Theorems for the claims. -/

/-- C1: the claim says an unexpected (non-timeout) tick fault causes an
immediate exit with status 2; on the code, the catch-all handler's first
statement `logging.logging.critical(...)` raises `AttributeError`, so the
process dies from an uncaught exception (interpreter status 1 with a
traceback), never reaching `exit(2)`.  Evaluated here at a tick raising an
unexpected fault with the whole loop-reconnect budget remaining. -/
theorem claim1_unexpected_fault_crashes_not_exit2 :
    steadyLoop ⟨"n", "t", [], 10, 10, 10⟩ ⟨0, 0, false, false⟩
        [(true, TickResult.otherErr)]
      = ([Ev.tickCall], RunResult.crashed ⟨1, 0, false, false⟩) := by decide

/-- C2: the claim says a timeout tick increments the counter, sets the
pending-reconnect flag and the loop continues; on the code the counter is
incremented and the flag is set, but the handler's log line concatenates a
`str` with an `int` and raises `TypeError`, so the loop does not continue
(no next iteration, no reconnect) even though further input is available. -/
theorem claim2_timeout_crashes_before_next_iteration :
    steadyLoop ⟨"n", "t", [], 10, 10, 10⟩ ⟨0, 0, false, false⟩
        [(true, TickResult.timeoutErr), (true, TickResult.ok)]
      = ([Ev.tickCall], RunResult.crashed ⟨1, 1, true, false⟩) := by decide

/-- C3: with all ceilings valid and exactly `mqtt_max_startup` consecutive
connect failures, `run` makes exactly that many connect attempts (at
least one) and exits with status 1, making no further attempt even when
more connect outcomes are available. -/
theorem claim3_startup_exhaustion_exits_one (cfg : Config)
    (rest : List ConnectResult) (inputs : List (Bool × TickResult))
    (h1 : 1 ≤ cfg.mqtt_max_startup) (h2 : 1 ≤ cfg.mqtt_max_loop_reconnect)
    (h3 : 1 ≤ cfg.mqtt_max_reconnects) :
    ∃ evs : List Ev,
      run cfg (List.replicate cfg.mqtt_max_startup.toNat ConnectResult.osError ++ rest)
          inputs
        = (evs, RunResult.exited 1)
      ∧ evs.count Ev.connectCall = cfg.mqtt_max_startup.toNat
      ∧ 1 ≤ evs.count Ev.connectCall := by
  refine ⟨(List.replicate cfg.mqtt_max_startup.toNat [Ev.connectCall, Ev.wait30]).flatten,
    ?_, count_connectCall_join_replicate _, ?_⟩
  · unfold run
    rw [if_neg (by omega), if_neg (by omega), if_neg (by omega)]
    rw [startupLoop_replicate_osError cfg.mqtt_max_startup.toNat 0 cfg.mqtt_max_startup
      (by omega) rest]
    simp
  · rw [count_connectCall_join_replicate]
    omega

/-- C3 witness: startup ceiling 1, one failed connect (with a further
successful outcome available that is never attempted). -/
theorem claim3_witness :
    (1 : Int) ≤ 1 ∧ (1 : Int) ≤ 10 ∧
    (∃ evs : List Ev,
      run ⟨"n", "t", [], 10, 1, 10⟩
          (List.replicate (1 : Int).toNat ConnectResult.osError ++ [ConnectResult.ok]) []
        = (evs, RunResult.exited 1)
      ∧ evs.count Ev.connectCall = (1 : Int).toNat
      ∧ 1 ≤ evs.count Ev.connectCall) :=
  ⟨by decide, by decide,
    claim3_startup_exhaustion_exits_one ⟨"n", "t", [], 10, 1, 10⟩ [ConnectResult.ok] []
      (by decide) (by decide) (by decide)⟩

/-- C4: the claim says that after N failures, N below the ceiling, a
successful connect on attempt N+1 proceeds to the steady state; on the
code, when attempt N+1 is the last one the ceiling permits, the
post-loop check `startup_count >= mqtt_max_startup` fires even though the
connect succeeded, and the process exits with status 1 without ever
ticking.  Evaluated at ceiling 2, one failure, then success. -/
theorem claim4_success_on_last_permitted_attempt_exits_one :
    run ⟨"n", "t", [], 10, 2, 10⟩ [ConnectResult.osError, ConnectResult.ok]
        [(true, TickResult.ok)]
      = ([Ev.connectCall, Ev.wait30, Ev.connectCall, Ev.registerDisconnect],
         RunResult.exited 1) := by decide

/-- C5: the claim says any successful reconnect in the disconnect callback
breaks the sub-loop without terminating the process; on the code, a
reconnect that succeeds on the last permitted attempt still triggers
`exit(1)`, because the post-loop check tests only
`reconnect_count >= mqtt_max_reconnects`.  Evaluated at ceiling 1 with the
first reconnect succeeding; the zero-reason-code case (no attempts, no
exit) is evaluated alongside. -/
theorem claim5_successful_reconnect_still_exits_one :
    on_disconnect ⟨"n", "t", [], 1, 10, 10⟩ 1 [ConnectResult.ok]
      = some ([Ev.reconnectCall], DisconnectResult.exitCall 1)
    ∧ on_disconnect ⟨"n", "t", [], 1, 10, 10⟩ 0 [ConnectResult.ok]
      = some ([], DisconnectResult.returned) := by decide

/-- C6: whenever `running` is read as false while the loop-reconnect count
is below its ceiling, the steady-state loop stops at that iteration
boundary with exit status 0, performing no event at all afterwards — in
particular no pending reconnect, whatever the state of the flag. -/
theorem claim6_stop_flag_exits_zero (cfg : Config) (st : LoopState)
    (t : TickResult) (rest : List (Bool × TickResult))
    (h : st.loop_reconnect_count < cfg.mqtt_max_loop_reconnect) :
    steadyLoop cfg st ((false, t) :: rest) = ([], RunResult.exited 0) := by
  show ([], postLoop cfg st) = ([], RunResult.exited 0)
  unfold postLoop
  rw [if_neg (not_le.mpr h)]

/-- C6 witness: the flag is read as false with a reconnect pending
(`reconnect_flag` set) and budget remaining; the loop exits 0 without
reconnecting. -/
theorem claim6_witness :
    ((⟨5, 3, true, false⟩ : LoopState)).loop_reconnect_count <
        ((⟨"n", "t", [], 10, 10, 10⟩ : Config)).mqtt_max_loop_reconnect
    ∧ steadyLoop ⟨"n", "t", [], 10, 10, 10⟩ ⟨5, 3, true, false⟩
        [(false, TickResult.ok)]
      = ([], RunResult.exited 0) :=
  ⟨by decide,
    claim6_stop_flag_exits_zero ⟨"n", "t", [], 10, 10, 10⟩ ⟨5, 3, true, false⟩
      TickResult.ok [] (by decide)⟩

/-- C7: whenever any of the three retry ceilings is below 1, `run` exits
with status 1 during validation, before any connect attempt (its event
trace is empty). -/
theorem claim7_invalid_ceiling_exits_before_connect (cfg : Config)
    (connects : List ConnectResult) (inputs : List (Bool × TickResult))
    (h : cfg.mqtt_max_startup < 1 ∨ cfg.mqtt_max_loop_reconnect < 1 ∨
         cfg.mqtt_max_reconnects < 1) :
    run cfg connects inputs = ([], RunResult.exited 1) := by
  unfold run
  split_ifs with h1 h2 h3
  · rfl
  · rfl
  · rfl
  · rcases h with h | h | h <;> omega

/-- C7 witness: startup ceiling 0, with a successful connect outcome
available that is never attempted. -/
theorem claim7_witness :
    ((⟨"n", "t", [], 10, 0, 10⟩ : Config)).mqtt_max_startup < 1
    ∧ run ⟨"n", "t", [], 10, 0, 10⟩ [ConnectResult.ok] []
      = ([], RunResult.exited 1) :=
  ⟨by decide,
    claim7_invalid_ceiling_exits_before_connect ⟨"n", "t", [], 10, 0, 10⟩
      [ConnectResult.ok] [] (Or.inl (by decide))⟩

/-- C8 counterexample: a malformed payload on the subscribed topic
produces two warning log records, not exactly one as the claim states. -/
theorem claim8_counterexample :
    on_message ⟨"n", "t", [("f", "x")], 10, 10, 10⟩ ⟨"t", Payload.malformed⟩
      = ([], 2)
    ∧ (2 : Nat) ≠ 1 := by decide

/-- C8 (amended): every malformed message on the subscribed topic —
unparsable payload, or some configured field absent or non-numeric — is
handled locally by `on_message`, which catches every exception (so it
cannot stop the loop, and `loop_reconnect_count`, a local variable of
`run`, is out of its reach), and produces exactly two warning log
records: the topic/payload line and the traceback. -/
theorem claim8_malformed_two_warnings (cfg : Config) (m : Message)
    (htopic : m.topic = cfg.topic) (hfail : payloadFails cfg m.payload = true) :
    (on_message cfg m).2 = 2 := by
  obtain ⟨mt, mp⟩ := m
  have hmt : mt = cfg.topic := htopic
  subst hmt
  cases mp with
  | malformed => simp [on_message]
  | obj fields =>
    have h2 := convLoop_snd_of_fail cfg.name fields cfg.param_conv
      (by simpa [payloadFails] using hfail)
    simp [on_message, h2]

/-- C8 witness: a message whose single configured field is present but not
numeric. -/
theorem claim8_witness :
    ((⟨"t", Payload.obj [("f", JVal.nonNum)]⟩ : Message).topic
        = (⟨"n", "t", [("f", "x")], 10, 10, 10⟩ : Config).topic)
    ∧ payloadFails ⟨"n", "t", [("f", "x")], 10, 10, 10⟩
        (Payload.obj [("f", JVal.nonNum)]) = true
    ∧ (on_message ⟨"n", "t", [("f", "x")], 10, 10, 10⟩
        ⟨"t", Payload.obj [("f", JVal.nonNum)]⟩).2 = 2 :=
  ⟨rfl, by decide, claim8_malformed_two_warnings _ _ rfl (by decide)⟩

/-- C9 counterexample: field value -0.0004 (its exact rational, standing
in for the IEEE double) is published as "-0", not "0" as the claim
states: `format(-0.4, ".0f")` keeps the sign of the value. -/
theorem claim9_counterexample :
    on_message ⟨"n", "t", [("f", "x")], 10, 10, 10⟩
        ⟨"t", Payload.obj [("f", JVal.num (-0.0004))]⟩
      = ([("n/x", "-0")], 0)
    ∧ ("-0" : String) ≠ "0" := by
  constructor
  · show ([("n/x", formatDot0f ((-0.0004 : ℚ) * 1000))], 0) = ([("n/x", "-0")], 0)
    rw [formatDot0f_at_neg0004]
  · decide

/-- C9 (amended): for every well-formed message on the subscribed topic
whose configured fields are all present and numeric, each configured pair
publishes to `<name>/<suffix>` the field's value scaled by 1000, rounded
to the nearest integer (ties to even) and rendered as a decimal integer
string whose "-" sign follows the sign of the scaled value — a negative
value that rounds to zero renders as "-0".  Value 12.345 renders as
"12345" and value -0.0004 as "-0". -/
theorem claim9_scaled_rounded_publish (cfg : Config)
    (fields : List (String × JVal))
    (h : ∀ p ∈ cfg.param_conv, (getNum fields p.1).isSome) :
    on_message cfg ⟨cfg.topic, Payload.obj fields⟩
      = (cfg.param_conv.map fun p =>
          (cfg.name ++ "/" ++ p.2, formatDot0f ((getNum fields p.1).getD 0 * 1000)), 0)
    ∧ formatDot0f ((12.345 : ℚ) * 1000) = "12345"
    ∧ formatDot0f ((-0.0004 : ℚ) * 1000) = "-0" := by
  refine ⟨?_, formatDot0f_at_12345, formatDot0f_at_neg0004⟩
  have hc := convLoop_allNum cfg.name fields cfg.param_conv h
  simp [on_message, hc]

/-- C9 witness: one conversion pair mapping field "f" to suffix "x", with
field value 12.345; the publish goes to "n/x" with payload "12345". -/
theorem claim9_witness :
    (∀ p ∈ ([("f", "x")] : List (String × String)),
      (getNum [("f", JVal.num 12.345)] p.1).isSome)
    ∧ on_message ⟨"n", "t", [("f", "x")], 10, 10, 10⟩
        ⟨"t", Payload.obj [("f", JVal.num 12.345)]⟩
      = ([("n/x", "12345")], 0) := by
  refine ⟨by decide, ?_⟩
  have h := (claim9_scaled_rounded_publish ⟨"n", "t", [("f", "x")], 10, 10, 10⟩
    [("f", JVal.num 12.345)] (by decide)).1
  have h2 : on_message ⟨"n", "t", [("f", "x")], 10, 10, 10⟩
      ⟨"t", Payload.obj [("f", JVal.num 12.345)]⟩
      = ([("n/x", formatDot0f ((12.345 : ℚ) * 1000))], 0) := h
  rw [h2, formatDot0f_at_12345]

/-- C10: conversion is not atomic: when the configured pairs split as
`good ++ bad :: tail` with every field of `good` present and numeric and
the field of `bad` absent or non-numeric, the publishes for `good` are
emitted in configuration order before the failure is caught and logged,
and nothing at or after `bad` is published (the message is dropped). -/
theorem claim10_prefix_published_before_failure (cfg : Config)
    (fields : List (String × JVal)) (good : List (String × String))
    (bad : String × String) (tail : List (String × String))
    (hpc : cfg.param_conv = good ++ bad :: tail)
    (hgood : ∀ p ∈ good, (getNum fields p.1).isSome)
    (hbad : getNum fields bad.1 = none) :
    on_message cfg ⟨cfg.topic, Payload.obj fields⟩
      = (good.map fun p =>
          (cfg.name ++ "/" ++ p.2, formatDot0f ((getNum fields p.1).getD 0 * 1000)), 2) := by
  have hc := convLoop_failAfter cfg.name fields bad tail hbad good hgood
  simp [on_message, hpc, hc]

/-- C10 witness: two configured pairs; the first field is present and
numeric and is published, the second is absent, after which the message
is dropped with the failure logged. -/
theorem claim10_witness :
    ((⟨"n", "t", [("a", "x"), ("b", "y")], 10, 10, 10⟩ : Config).param_conv
        = [("a", "x")] ++ ("b", "y") :: [])
    ∧ (∀ p ∈ ([("a", "x")] : List (String × String)),
        (getNum [("a", JVal.num 1)] p.1).isSome)
    ∧ getNum [("a", JVal.num 1)] ("b", "y").1 = none
    ∧ on_message ⟨"n", "t", [("a", "x"), ("b", "y")], 10, 10, 10⟩
        ⟨"t", Payload.obj [("a", JVal.num 1)]⟩
      = ([("n/x", "1000")], 2) := by
  refine ⟨rfl, by decide, by decide, ?_⟩
  have h := claim10_prefix_published_before_failure
    ⟨"n", "t", [("a", "x"), ("b", "y")], 10, 10, 10⟩ [("a", JVal.num 1)]
    [("a", "x")] ("b", "y") [] rfl (by decide) (by decide)
  have h2 : on_message ⟨"n", "t", [("a", "x"), ("b", "y")], 10, 10, 10⟩
      ⟨"t", Payload.obj [("a", JVal.num 1)]⟩
      = ([("n/x", formatDot0f ((1 : ℚ) * 1000))], 2) := h
  rw [h2, formatDot0f_at_one]

end NOFP
